import Mathlib

/-!
Verification of the tenant-scoping engine of django-multitenant, a shallow
embedding of `src/django_multitenant/fields.py` and
`src/django_multitenant/mixins.py`.

The helper module `django_multitenant/utils.py`, the DELETE-compiler wrapper
`django_multitenant/query.py` and the cascade hook `django_multitenant/deletion.py`
are part of the repository but are not included in the sources; the definitions
below that stand for them are modelled from the specification (spec.md sections
4.1 to 4.3 and 4.7) and carry a doc comment saying so.  External collaborators
of the engine (the underlying ORM's query construction, base update semantics
and field constructors) are modelled at their interface boundary, as the
specification's section 6 describes them.
-/

namespace DjangoMultitenant

/-- A tenant discriminator value (spec section 3, `TenantValue`): typically a
scalar identifier, but a list-valued form exists, used by the lifecycle hook to
suppress auto-stamping (`isinstance(tenant_value, list)` in `mixins.py`). -/
inductive TenantValue where
  | scalar (v : Int)
  | values (vs : List Int)
deriving DecidableEq

/-- Python truthiness of a tenant value: a scalar is truthy when nonzero, a
list when non-empty.  `mixins.py` tests `tenant_value and ...` and
`fields.py` tests `if not current_tenant_value`. -/
def TenantValue.pyTruthy : TenantValue → Bool
  | .scalar v => decide (v ≠ 0)
  | .values vs => decide (vs ≠ [])

/-- Whether the value is the list-valued form (`isinstance(tenant_value, list)`). -/
def TenantValue.isList : TenantValue → Bool
  | .scalar _ => false
  | .values _ => true

/-- Modelled from the spec: the process-wide Tenant Context of section 4.1
(held in `django_multitenant/utils.py`, not included in the sources): a single
cell holding an optional tenant, represented by its discriminator value. -/
abbrev TenantContext := Option TenantValue

/-- Modelled from the spec: `get_current_tenant` from `utils.py` (not included),
the `get() -> Option<TenantValue>` operation of section 4.1.  The Python
function returns the current tenant object, which is truthy exactly when a
tenant is set, so `if not current_tenant` in the sources is `Option.isSome`
being false here. -/
def get_current_tenant (ctx : TenantContext) : Option TenantValue := ctx

/-- Modelled from the spec: `get_current_tenant_value` from `utils.py` (not
included) — the current tenant's discriminator value, on which the sources
apply Python truthiness tests directly. -/
def get_current_tenant_value (ctx : TenantContext) : Option TenantValue := ctx

/-- Python truthiness of an optional tenant value: `None` is falsy, otherwise
the value's own truthiness applies. -/
def optValueTruthy : Option TenantValue → Bool
  | none => false
  | some v => v.pyTruthy

/-- Python truthiness of an optional integer primary key (`not self.pk` in
`mixins.py`): `None` and `0` are falsy. -/
def pyTruthyOptInt : Option Int → Bool
  | none => false
  | some n => decide (n ≠ 0)

/-- A tenant-scoped entity type (spec section 3, `EntityTenantMetadata`): its
name and the name of its tenant-discriminator column, recorded at declaration
time via the `tenant_id` class attribute. -/
structure Entity where
  name : String
  tenantColumn : String
deriving DecidableEq

/-- Modelled from the spec: `get_tenant_column` from `utils.py` (not included),
the Metadata Resolver of section 4.2 — a pure lookup of the entity type's
declared tenant-column name. -/
def get_tenant_column (e : Entity) : String := e.tenantColumn

/-- A field object of an entity, as returned by the tenant-field lookup: it
knows its owning model and its column name. -/
structure TenantField where
  ownerModel : Entity
  column : String
deriving DecidableEq

/-- Modelled from the spec: `get_tenant_field` from `utils.py` (not included) —
the field object for the entity's declared tenant column (section 4.2). -/
def get_tenant_field (e : Entity) : TenantField := ⟨e, e.tenantColumn⟩

/-- Modelled from the spec: `get_tenant_filters` from `utils.py` (not
included), the Predicate Builder of section 4.3: a mapping from the entity's
tenant column name to the current tenant value when a tenant is set, and the
empty mapping (meaning "do not filter") when none is set. -/
def get_tenant_filters (ctx : TenantContext) (e : Entity) : List (String × TenantValue) :=
  match ctx with
  | none => []
  | some v => [(e.tenantColumn, v)]

/-- A database row: an optional primary key and an association list of column
values. -/
structure Row where
  pk : Option Int
  cols : List (String × TenantValue)
deriving DecidableEq

/-- The value a row holds in a column (first binding wins, as attribute lookup
does). -/
def Row.get (r : Row) (c : String) : Option TenantValue :=
  (r.cols.find? (fun kv => decide (kv.1 = c))).map (fun kv => kv.2)

/-- Whether a row satisfies every equality of a filter mapping — the meaning of
`queryset.filter(**kwargs)` on one row (external ORM interface, spec
section 6). -/
def matchesFilters (filters : List (String × TenantValue)) (r : Row) : Bool :=
  filters.all (fun kv => decide (r.get kv.1 = some kv.2))

/-- `queryset.filter(**kwargs)`: intersect a query's rows with an additional
equality filter (external ORM interface, spec section 6). -/
def qsFilter (qs : List Row) (filters : List (String × TenantValue)) : List Row :=
  qs.filter (matchesFilters filters)

/-- An observability warning emitted through the logger.  The only warning in
the sources is the one `TenantModelMixin._do_update` logs, carrying the entity
type's name and the instance's textual representation. -/
inductive LogWarning where
  | updateWithoutTenant (modelName : String) (instanceRepr : String)
deriving DecidableEq

/-- `TenantManagerMixin.get_queryset` (`mixins.py` lines 24 to 32): build the
base queryset of the manager's model; if a current tenant is set, return it
filtered by the tenant filters, otherwise return it unchanged.  The second
component records the warnings emitted (the source logs none here). -/
def TenantManagerMixin.get_queryset (ctx : TenantContext) (model : Entity)
    (base : List Row) : List Row × List LogWarning :=
  match get_current_tenant ctx with
  | some _ => (qsFilter base (get_tenant_filters ctx model), [])
  | none => (base, [])

/-- A persisted entity instance: its entity type (whose declared tenant column
is the `tenant_id` class attribute), its primary key, its textual
representation (used in the update warning) and its attribute values. -/
structure Instance where
  model : Entity
  pk : Option Int
  strRepr : String
  cols : List (String × TenantValue)
deriving DecidableEq

/-- `TenantModelMixin.tenant_field` (`mixins.py` lines 77 to 79): the
`tenant_id` class attribute, i.e. the declared tenant column name. -/
def Instance.tenant_field (self : Instance) : String := self.model.tenantColumn

/-- Attribute lookup on an instance. -/
def Instance.getattr (self : Instance) (c : String) : Option TenantValue :=
  (self.cols.find? (fun kv => decide (kv.1 = c))).map (fun kv => kv.2)

/-- Python `setattr`: the new binding shadows any previous one. -/
def Instance.setattr (self : Instance) (c : String) (v : TenantValue) : Instance :=
  { self with cols := (c, v) :: self.cols }

/-- The underlying ORM's `Model._do_update` (external collaborator, spec
section 6): the UPDATE affects exactly the rows of the supplied queryset whose
primary key equals `pk_val`; the affected rows are returned. -/
def baseDoUpdate (base_qs : List Row) (pk_val : Int) : List Row :=
  base_qs.filter (fun r => decide (r.pk = some pk_val))

/-- `TenantModelMixin._do_update` (`mixins.py` lines 46 to 68): if a current
tenant is set, intersect the update's base queryset with the tenant filters of
the instance's class before delegating; otherwise delegate unchanged and log a
warning carrying the entity type name and the instance.  Returns the affected
rows and the warnings emitted. -/
def TenantModelMixin.do_update (ctx : TenantContext) (self : Instance)
    (base_qs : List Row) (pk_val : Int) : List Row × List LogWarning :=
  match get_current_tenant ctx with
  | some _ =>
      let kwargs := get_tenant_filters ctx self.model
      (baseDoUpdate (qsFilter base_qs kwargs) pk_val, [])
  | none =>
      (baseDoUpdate base_qs pk_val,
        [.updateWithoutTenant self.model.name self.strRepr])

/-- `TenantModelMixin.save` (`mixins.py` lines 70 to 75): when the instance has
no truthy primary key and the current tenant value is truthy and not
list-valued, stamp the tenant attribute with that value before delegating to
the base save; the instance handed to the base save is returned. -/
def TenantModelMixin.save (ctx : TenantContext) (self : Instance) : Instance :=
  match get_current_tenant_value ctx with
  | some tenant_value =>
      if !pyTruthyOptInt self.pk && tenant_value.pyTruthy && !tenant_value.isList then
        self.setattr self.tenant_field tenant_value
      else
        self
  | none => self

/-- `TenantForeignKey` (`fields.py` lines 32 to 107): a declared foreign-key
relation from the declaring model (`self.model`) to the target model
(`self.related_model`), with the relation field's name (`self.name`). -/
structure TenantForeignKey where
  model : Entity
  related_model : Entity
  name : String
deriving DecidableEq

/-- `TenantForeignKey.get_joining_columns` (`fields.py` lines 45 to 51): the
joining columns the base foreign key produces (`default_columns`, supplied by
the external ORM's `super()` call) extended with the pair of tenant column
names of the declaring and the related model. -/
def TenantForeignKey.get_joining_columns (self : TenantForeignKey)
    (default_columns : List (String × String)) : List (String × String) :=
  default_columns ++ [(get_tenant_column self.model, get_tenant_column self.related_model)]

/-- The payload of the `ValueError` raised by
`TenantForeignKey.get_extra_descriptor_filter`: the message template and the
two identifying arguments (declaring model name, relation field name). -/
structure FieldError where
  template : String
  modelName : String
  fieldName : String
deriving DecidableEq

/-- `TenantForeignKey.get_extra_descriptor_filter` (`fields.py` lines 54
to 74): on instance-to-instance traversal, raise a `ValueError` naming the
declaring model and the field when no current tenant is set, otherwise return
the tenant filters for the instance. -/
def TenantForeignKey.get_extra_descriptor_filter (self : TenantForeignKey)
    (ctx : TenantContext) (inst : Instance) :
    Except FieldError (List (String × TenantValue)) :=
  match get_current_tenant ctx with
  | none =>
      .error ⟨"TenantForeignKey field %s.%s accessed without a current tenant set.",
        self.model.name, self.name⟩
  | some _ => .ok (get_tenant_filters ctx inst.model)

/-- A column reference produced by `field.get_col(alias)`: a table alias and a
column name. -/
structure Col where
  tableAlias : String
  column : String
deriving DecidableEq

/-- `field.get_col(alias)` of the external ORM: reference the field's column
under the given table alias. -/
def TenantField.get_col (f : TenantField) (a : String) : Col := ⟨a, f.column⟩

/-- A lookup built by `field.get_lookup("exact")(lhs, value)`: an equality
between a column reference and a tenant value. -/
inductive Lookup where
  | exact (lhs : Col) (value : TenantValue)
deriving DecidableEq

/-- A `where_class()` condition: the lookups added to it together with their
connector. -/
structure WhereNode where
  conds : List (Lookup × String)
deriving DecidableEq

/-- `TenantForeignKey.get_extra_restriction` (`fields.py` lines 77 to 102):
when the current tenant value is falsy, no restriction; otherwise a fresh
condition holding the single lookup `exact` between the declaring model's
tenant field referenced at `related_alias` and the current tenant value,
added with the `AND` connector.  The `tableAlias` parameter is the `alias`
argument of the source, which the source never uses. -/
def TenantForeignKey.get_extra_restriction (self : TenantForeignKey)
    (ctx : TenantContext) (tableAlias related_alias : String) : Option WhereNode :=
  match get_current_tenant_value ctx with
  | none => none
  | some current_tenant_value =>
      if current_tenant_value.pyTruthy then
        let lhs_tenant_field := get_tenant_field self.model
        let lookup_lhs := lhs_tenant_field.get_col related_alias
        some ⟨[(.exact lookup_lhs current_tenant_value, "AND")]⟩
      else
        none

/-- `TenantForeignKey._check_unique_target` (`fields.py` lines 104 to 107):
the uniqueness-requires-true-primary-key validation is suppressed — the empty
error list is returned.  The source method takes no argument beyond `self`;
the `referencedColumnUnique` parameter records whether the referenced column
declares a single-column unique constraint, so that the statement can
quantify over it. -/
def TenantForeignKey.check_unique_target (self : TenantForeignKey)
    (referencedColumnUnique : Bool) : List String := []

/-- The keyword arguments relevant to the `TenantOneToOneField` constructor
chain: the optional `unique` entry and the optional `tenant_id` entry. -/
structure FieldKwargs where
  unique : Option Bool
  tenant_id : Option Int
deriving DecidableEq

/-- `kwargs["unique"] = b`. -/
def FieldKwargs.setUnique (k : FieldKwargs) (b : Bool) : FieldKwargs :=
  { k with unique := some b }

/-- Models the external ORM framework (spec section 6, field declaration):
`OneToOneField.__init__` forcibly sets the `unique` keyword argument to `True`
— a one-to-one field is by its documented contract a foreign key with
`unique=True` — before delegating to the next constructor in method
resolution order. -/
def OneToOneField_init_step (kwargs : FieldKwargs) : FieldKwargs :=
  kwargs.setUnique true

/-- `TenantIDFieldMixin.__init__` (`fields.py` lines 22 to 24): pop
`tenant_id` from the keyword arguments, keeping it on the field, and delegate
the rest. -/
def TenantIDFieldMixin_init_step (kwargs : FieldKwargs) : Option Int × FieldKwargs :=
  (kwargs.tenant_id, { kwargs with tenant_id := none })

/-- Models the external ORM framework (spec section 6, field declaration): the
base `Field` constructor, reached through `ForeignKey.__init__` which passes
the keyword arguments through untouched, stores the `unique` keyword argument
as the field's `unique` flag, defaulting to `False` when absent. -/
def Field_init_unique (kwargs : FieldKwargs) : Bool :=
  kwargs.unique.getD false

/-- The observable state of a constructed `TenantOneToOneField`. -/
structure TenantOneToOneFieldState where
  unique : Bool
  tenant_id : Option Int
deriving DecidableEq

/-- `TenantOneToOneField.__init__` (`fields.py` lines 110 to 114): set
`kwargs["unique"] = False`, then call `super().__init__`.  Python's method
resolution order for
`class TenantOneToOneField(models.OneToOneField, TenantIDFieldMixin, TenantForeignKey)`
is `TenantOneToOneField, OneToOneField, TenantIDFieldMixin, TenantForeignKey,
ForeignKey, ..., Field`, so the delegation runs `OneToOneField.__init__`
first, then `TenantIDFieldMixin.__init__`, and the remaining chain stores the
resulting `unique` keyword argument on the field. -/
def TenantOneToOneField_init (kwargs : FieldKwargs) : TenantOneToOneFieldState :=
  let kwargs1 := kwargs.setUnique false
  let kwargs2 := OneToOneField_init_step kwargs1
  let step3 := TenantIDFieldMixin_init_step kwargs2
  { unique := Field_init_unique step3.2, tenant_id := step3.1 }

/-- The `DeleteQuery.get_compiler` function slot as observable state: whether
it carries the `_sign` marker attribute, and how many tenant-wrap layers have
been applied to it. -/
structure CompilerFn where
  hasSign : Bool
  wraps : Nat
deriving DecidableEq

/-- Modelled from the spec: `wrap_get_compiler` from
`django_multitenant/query.py` (not included) — wraps the compiler factory so
that the generated DELETE carries the tenant predicate, and marks the wrapper
with the `_sign` attribute (spec section 4.7). -/
def wrap_get_compiler (f : CompilerFn) : CompilerFn :=
  ⟨true, f.wraps + 1⟩

/-- The process state the installation guard inspects: the current
`DeleteQuery.get_compiler` slot. -/
structure ProcessState where
  get_compiler : CompilerFn
deriving DecidableEq

/-- The unpatched process state: the original ORM compiler factory, which has
no `_sign` attribute and no wrap layer. -/
def freshProcessState : ProcessState := ⟨⟨false, 0⟩⟩

/-- `TenantModelMixin.__init__` (`mixins.py` lines 39 to 44): if
`DeleteQuery.get_compiler` does not carry the `_sign` attribute, replace it by
its wrapped form; otherwise leave the state untouched. -/
def TenantModelMixin.init (s : ProcessState) : ProcessState :=
  if s.get_compiler.hasSign then s
  else { s with get_compiler := wrap_get_compiler s.get_compiler }

/-- Modelled from the spec: compiling a DELETE under a given compiler slot
(section 4.7) — each wrap layer appends the tenant predicate once to the
generated DELETE's WHERE clause. -/
def compileDeleteWhere (f : CompilerFn) (baseWhere : List Lookup)
    (tenantPred : Lookup) : List Lookup :=
  baseWhere ++ List.replicate f.wraps tenantPred

theorem getattr_setattr (self : Instance) (c : String) (v : TenantValue) :
    (self.setattr c v).getattr c = some v := by
  simp [Instance.setattr, Instance.getattr]

theorem tenantInit_hasSign (s : ProcessState) :
    (TenantModelMixin.init s).get_compiler.hasSign = true := by
  by_cases h : s.get_compiler.hasSign <;>
    simp [TenantModelMixin.init, h, wrap_get_compiler]

theorem tenantInit_of_hasSign (s : ProcessState)
    (h : s.get_compiler.hasSign = true) : TenantModelMixin.init s = s := by
  simp [TenantModelMixin.init, h]

theorem tenantInit_iterate_fresh (n : Nat) :
    (TenantModelMixin.init)^[n + 1] freshProcessState = ⟨⟨true, 1⟩⟩ := by
  induction n with
  | zero => rfl
  | succ k ih =>
      rw [Function.iterate_succ_apply', ih]
      rfl

/-- C1: for a TenantForeignKey between entity types A (declaring) and B
(target), `get_joining_columns` returns exactly the default joining columns of
the underlying foreign key extended with the single additional pair of A's and
B's tenant column names, so the join carries both the declared key equality and
the tenant-column equality. -/
theorem get_joining_columns_spec (fk : TenantForeignKey)
    (default_columns : List (String × String)) (p : String × String) :
    fk.get_joining_columns default_columns
      = default_columns ++ [(fk.model.tenantColumn, fk.related_model.tenantColumn)]
    ∧ (p ∈ fk.get_joining_columns default_columns ↔
        p ∈ default_columns ∨ p = (fk.model.tenantColumn, fk.related_model.tenantColumn)) := by
  constructor
  · rfl
  · simp [TenantForeignKey.get_joining_columns, get_tenant_column]

/-- C2: with a current tenant T2 set at save time, `_do_update` intersects the
update's base queryset with the tenant filter built from T2, so a row is
affected exactly when it lies in the base queryset, carries tenant value T2 in
the instance's tenant column, and has the updated primary key — in particular
zero rows are affected when T2 does not match the row's stored tenant value. -/
theorem do_update_scoped_by_current_tenant (t2 : TenantValue) (self : Instance)
    (base_qs : List Row) (pk_val : Int) (r : Row) :
    r ∈ (TenantModelMixin.do_update (some t2) self base_qs pk_val).1 ↔
      r ∈ base_qs ∧ r.get self.model.tenantColumn = some t2 ∧ r.pk = some pk_val := by
  simp only [TenantModelMixin.do_update, get_current_tenant, get_tenant_filters,
    qsFilter, baseDoUpdate, matchesFilters, List.mem_filter, List.all_cons,
    List.all_nil, Bool.and_true, decide_eq_true_eq]
  tauto

/-- C3: on save of an instance with no existing identity, a set scalar (truthy,
non-list) current tenant value is stamped onto the instance's tenant attribute
before the insert, while a list-valued current tenant value leaves the instance
untouched by this mechanism. -/
theorem save_tenant_stamping (self : Instance) (v : Int) (vs : List Int)
    (hv : v ≠ 0) (hpk : pyTruthyOptInt self.pk = false)
    (hunset : self.getattr self.tenant_field = none) :
    (TenantModelMixin.save (some (.scalar v)) self).getattr self.tenant_field
      = some (.scalar v)
    ∧ TenantModelMixin.save (some (.values vs)) self = self := by
  constructor
  · have hstep : TenantModelMixin.save (some (.scalar v)) self
        = self.setattr self.tenant_field (.scalar v) := by
      simp [TenantModelMixin.save, get_current_tenant_value, hpk, hv,
        TenantValue.pyTruthy, TenantValue.isList]
    rw [hstep, getattr_setattr]
  · simp [TenantModelMixin.save, get_current_tenant_value, TenantValue.isList]

theorem save_tenant_stamping_witness :
    (TenantModelMixin.save (some (.scalar 7))
        ⟨⟨"Order", "account_id"⟩, none, "order-1", []⟩).getattr "account_id"
      = some (.scalar 7)
    ∧ TenantModelMixin.save (some (.values [1, 2]))
        ⟨⟨"Order", "account_id"⟩, none, "order-1", []⟩
      = ⟨⟨"Order", "account_id"⟩, none, "order-1", []⟩ :=
  save_tenant_stamping ⟨⟨"Order", "account_id"⟩, none, "order-1", []⟩ 7 [1, 2]
    (by decide) (by decide) (by decide)

/-- C4: instance-to-instance traversal of a TenantForeignKey raises an error
identifying the declaring entity type and the relation field when no current
tenant is set, and returns the tenant filter for the instance (its tenant
column bound to the current tenant value) when one is set. -/
theorem get_extra_descriptor_filter_spec (fk : TenantForeignKey)
    (inst : Instance) (v : TenantValue) :
    fk.get_extra_descriptor_filter none inst
      = .error ⟨"TenantForeignKey field %s.%s accessed without a current tenant set.",
          fk.model.name, fk.name⟩
    ∧ fk.get_extra_descriptor_filter (some v) inst
      = .ok [(inst.model.tenantColumn, v)] :=
  ⟨rfl, rfl⟩

theorem get_extra_restriction_on_declaring_model :
    TenantForeignKey.get_extra_restriction
        ⟨⟨"Order", "account_id"⟩, ⟨"Customer", "company_id"⟩, "customer"⟩
        (some (.scalar 5)) "t2" "t1"
      = some ⟨[(.exact ⟨"t1", "account_id"⟩ (.scalar 5), "AND")]⟩
    ∧ get_tenant_column (⟨"Customer", "company_id"⟩ : Entity) = "company_id"
    ∧ ("account_id" : String) ≠ "company_id" := by
  refine ⟨rfl, rfl, ?_⟩
  decide

/-- C5 (amended): `get_extra_restriction` returns no restriction when the
current tenant value is unset or falsy, and otherwise a single AND condition
equating the DECLARING model's tenant column, referenced at the related
(parent) alias, with the current tenant value — the restriction is built from
A's tenant field, not from the target model B's. -/
theorem get_extra_restriction_amended (fk : TenantForeignKey)
    (ta ra : String) (v : TenantValue) :
    fk.get_extra_restriction none ta ra = none
    ∧ (v.pyTruthy = false → fk.get_extra_restriction (some v) ta ra = none)
    ∧ (v.pyTruthy = true → fk.get_extra_restriction (some v) ta ra
        = some ⟨[(.exact ⟨ra, fk.model.tenantColumn⟩ v, "AND")]⟩) := by
  refine ⟨rfl, ?_, ?_⟩ <;> intro h <;>
    simp [TenantForeignKey.get_extra_restriction, get_current_tenant_value, h,
      get_tenant_field, TenantField.get_col]

theorem get_extra_restriction_amended_witness :
    TenantForeignKey.get_extra_restriction
        ⟨⟨"Order", "account_id"⟩, ⟨"Customer", "company_id"⟩, "customer"⟩
        (some (.scalar 0)) "t2" "t1" = none
    ∧ TenantForeignKey.get_extra_restriction
        ⟨⟨"Order", "account_id"⟩, ⟨"Customer", "company_id"⟩, "customer"⟩
        (some (.scalar 5)) "t2" "t1"
      = some ⟨[(.exact ⟨"t1", "account_id"⟩ (.scalar 5), "AND")]⟩ :=
  ⟨(get_extra_restriction_amended _ "t2" "t1" (.scalar 0)).2.1 (by decide),
   (get_extra_restriction_amended _ "t2" "t1" (.scalar 5)).2.2 (by decide)⟩

/-- C6: the collection accessor's `get_queryset` returns the unfiltered base
queryset unchanged when no current tenant is set, and with a current tenant set
a row is in the returned queryset exactly when it is in the base queryset and
its tenant column equals the current tenant value. -/
theorem get_queryset_tenant_filtering (model : Entity) (base : List Row)
    (v : TenantValue) (r : Row) :
    (TenantManagerMixin.get_queryset none model base).1 = base
    ∧ (r ∈ (TenantManagerMixin.get_queryset (some v) model base).1 ↔
        r ∈ base ∧ r.get model.tenantColumn = some v) := by
  constructor
  · rfl
  · simp [TenantManagerMixin.get_queryset, get_current_tenant,
      get_tenant_filters, qsFilter, matchesFilters, List.mem_filter]

theorem get_queryset_emits_no_warning :
    TenantManagerMixin.get_queryset none ⟨"Order", "account_id"⟩
        [⟨some 1, [("account_id", .scalar 3)]⟩]
      = ([⟨some 1, [("account_id", .scalar 3)]⟩], []) :=
  rfl

/-- C7 (amended): with no current tenant set, a collection read proceeds
unfiltered and emits NO warning, while an entity update proceeds unscoped and
emits a warning identifying the entity type and the instance. -/
theorem missing_tenant_context_policy (model : Entity) (base : List Row)
    (self : Instance) (pk_val : Int) :
    TenantManagerMixin.get_queryset none model base = (base, [])
    ∧ TenantModelMixin.do_update none self base pk_val
      = (baseDoUpdate base pk_val,
          [.updateWithoutTenant self.model.name self.strRepr]) :=
  ⟨rfl, rfl⟩

/-- C8: installation of the DELETE-compiler wrapper is idempotent — installing
on an already-installed state is a no-op (guarded by the marker on the wrapped
function), and after any positive number of installations starting from the
unpatched state, compiling a DELETE appends the tenant predicate exactly
once. -/
theorem delete_compiler_wrapper_idempotent (s : ProcessState) (n : Nat)
    (baseWhere : List Lookup) (tenantPred : Lookup) :
    TenantModelMixin.init (TenantModelMixin.init s) = TenantModelMixin.init s
    ∧ compileDeleteWhere
        ((TenantModelMixin.init)^[n + 1] freshProcessState).get_compiler
        baseWhere tenantPred
      = baseWhere ++ [tenantPred] := by
  constructor
  · exact tenantInit_of_hasSign _ (tenantInit_hasSign s)
  · rw [tenantInit_iterate_fresh n]
    simp [compileDeleteWhere]

/-- C9: the uniqueness-requires-true-primary-key validation on the referenced
column is suppressed for a TenantForeignKey — the unique-target check returns
the empty list of errors regardless of whether the referenced column declares a
single-column unique constraint. -/
theorem check_unique_target_suppressed (fk : TenantForeignKey) (u : Bool) :
    fk.check_unique_target u = [] :=
  rfl

/-- C10 (code bug): for every set of constructor arguments — including an
explicit `unique` argument, either way — the field constructed by
`TenantOneToOneField.__init__` ends up with `unique = true`, because the
delegation to `super()` runs the one-to-one base constructor, which overrides
the `unique = False` the source just set. -/
theorem tenant_one_to_one_unique_forced_true (kwargs : FieldKwargs) :
    (TenantOneToOneField_init kwargs).unique = true :=
  rfl

end DjangoMultitenant
